import Mathlib

/-!
Shallow embedding of `dai_instance_transfer.py`, a script that transfers a
Driverless AI instance on H2O Steam from one user to another. Remote calls
(Steam login, instance lookup, stop, start, entity transfer, owner
reassignment) are modelled by an abstract environment `Env` that fixes the
outcome of every external call, and each embedded block of statements returns
a `Run`: a result (normal value or raised exception) together with the list
of observable events that happened, in order.
-/

/-- Exceptions raised by the script or by the third-party SDK calls:
`configException` models `ConfigException`, `instanceNotFoundException`
models `InstanceNotFoundException`, `attributeError` and `keyError` model the
Python built-in exceptions, `clickAbort` models `click.Abort` raised by
`click.confirm(..., abort=True)` on a negative answer, and `remoteError`
stands for an arbitrary exception raised by a remote SDK call. -/
inductive Exc where
  | configException (msg : String)
  | instanceNotFoundException (msg : String)
  | attributeError (msg : String)
  | keyError (key : String)
  | clickAbort
  | remoteError (msg : String)
deriving DecidableEq

/-- The data of a remote Driverless AI instance as the Steam SDK lookup
returns it: its id and its status string. -/
structure InstData where
  id : Nat
  status : String
deriving DecidableEq

/-- A click option declaration as built by `click.option` in
`parse_command_line_options`: the flag name, the help text, whether the
option is required, and the declared default. `Option.none` models Python
`None`, which is both the explicit `default=None` the source passes for the
two optional flags and the value click uses when no default is given. -/
structure OptionSpec where
  flag : String
  help : String
  required : Bool
  default : Option String
deriving DecidableEq

/-- Python runtime values flowing through the script: strings, `None`, and
the decorator objects returned by `click.option` — the values that
`parse_command_line_options` actually stores in its dictionary. -/
inductive PyVal where
  | str (s : String)
  | pyNone
  | optionDecorator (spec : OptionSpec)
deriving DecidableEq

/-- Observable actions of a run: every remote SDK call, the token-provider
lifecycle of `steam_login`, the confirmation prompt, and logging. -/
inductive Event where
  | createTokenProvider (refresh_token client_id token_endpoint : Option String)
  | acquireToken
  | login (url token : String)
  | closeTokenProvider
  | confirmPrompt (instance_name old_user_name new_user_name : PyVal)
  | lookupInstance (name owner : PyVal)
  | setOwner (id : Nat) (owner : PyVal)
  | stopInstance (id : Nat)
  | startInstance (id : Nat) (cpu_count memory_gb : PyVal)
  | transferEntities (id : Nat) (username_from username_to : PyVal)
  | logInfo (msg : String)
  | logError (e : Exc)
deriving DecidableEq

deriving instance DecidableEq for Except

/-- Result and event trace of an embedded block of Python statements: the
result is either a normal value or a raised exception, and the trace holds
the events that happened before the block finished or raised. -/
structure Run (α : Type) where
  result : Except Exc α
  trace : List Event
deriving DecidableEq

/-- Sequencing of embedded statements: on an exception the remaining
statements are skipped and the exception propagates; traces concatenate. -/
def Run.bind {α β : Type} (x : Run α) (f : α → Run β) : Run β :=
  match x.result with
  | .error e => ⟨.error e, x.trace⟩
  | .ok a => ⟨(f a).result, x.trace ++ (f a).trace⟩

/-- An embedded statement that does nothing and raises nothing. -/
def Run.pure {α : Type} (a : α) : Run α := ⟨.ok a, []⟩

/-- One section of the INI file, looked up like a `configparser` section:
`.get` returns the value for a key or `None` when it is missing. -/
abbrev SectionData := List (String × String)

/-- The local environment seen by `Config._load_config`: whether the file
`h2oai.config` exists in the current working directory, and the parsed
sections of its contents keyed by section name — the view that
`configparser.ConfigParser.read` produces of the file. -/
structure FileSystem where
  fileExists : Bool
  sections : List (String × SectionData)
deriving DecidableEq

/-- A `Config` object after a successful `__init__`: the Steam URL with all
trailing slashes stripped (`self.steam_url`) and the INI section selected by
it (`self._config`, here `configSection` since `instance`-style underscore
names read poorly in Lean). -/
structure Config where
  steam_url : String
  configSection : SectionData
deriving DecidableEq

/-- Python `s.rstrip("/")`: remove every trailing slash character. -/
def pyRstripSlashes (s : String) : String :=
  String.mk ((s.data.reverse.dropWhile (fun c => c == '/')).reverse)

/-- The attribute access and call `v.rstrip("/")` on a runtime value: only a
string has an `rstrip` method; on a `click.option` decorator (a function
object) or on `None`, Python raises `AttributeError`. -/
def pyRstrip (v : PyVal) : Except Exc String :=
  match v with
  | .str s => .ok (pyRstripSlashes s)
  | .optionDecorator _ =>
    .error (.attributeError "function object has no attribute rstrip")
  | .pyNone =>
    .error (.attributeError "NoneType object has no attribute rstrip")

/-- `Config._load_config`: raise `ConfigException` when `h2oai.config` does
not exist in the current working directory; otherwise parse it and index the
parsed configuration by the stripped Steam URL (`config[self.steam_url]`,
whose failure on a missing section is a `KeyError`). -/
def Config.load_config (fs : FileSystem) (steam_url : String) : Except Exc SectionData :=
  if fs.fileExists = false then
    .error (.configException "Config file does not exist: h2oai.config")
  else
    match fs.sections.lookup steam_url with
    | some sec => .ok sec
    | none => .error (.keyError steam_url)

/-- `Config.__init__`: `self.steam_url = steam_url.rstrip("/")` followed by
`self._config = self._load_config()`; either step may raise. -/
def Config.init (fs : FileSystem) (steam_url : PyVal) : Except Exc Config :=
  match pyRstrip steam_url with
  | .error e => .error e
  | .ok u =>
    match Config.load_config fs u with
    | .error e => .error e
    | .ok sec => .ok ⟨u, sec⟩

/-- Property `Config.refresh_token`: `self._config.get("refresh_token")`. -/
def Config.refresh_token (c : Config) : Option String :=
  c.configSection.lookup "refresh_token"

/-- Property `Config.client_id`: `self._config.get("client_id")`. -/
def Config.client_id (c : Config) : Option String :=
  c.configSection.lookup "client_id"

/-- Property `Config.token_endpoint`: `self._config.get("token_endpoint")`. -/
def Config.token_endpoint (c : Config) : Option String :=
  c.configSection.lookup "token_endpoint"

/-- The remote world a run interacts with: the local file system plus the
outcome of every external call, as functions of the call arguments so that
remote behaviour may depend on them. An `Except.error` outcome models the
call raising an exception. -/
structure Env where
  fileSystem : FileSystem
  tokenResult : Except Exc String
  loginResult : String → String → Except Exc Unit
  confirmAnswer : Bool
  lookup : PyVal → PyVal → Except Exc (Option InstData)
  setOwnerResult : Nat → PyVal → Except Exc Unit
  stopResult : Nat → Except Exc Unit
  startResult : Nat → Except Exc Unit
  transferResult : Nat → PyVal → PyVal → Except Exc Unit

/-- The wrapper class `Instance` around the SDK instance object (the wrapped
object is the field `self.instance`, named `instanceData` here because
`instance` is a Lean keyword). -/
structure Instance where
  instanceData : InstData
deriving DecidableEq

/-- Property `Instance.id`, delegating to the wrapped instance. -/
def Instance.id (i : Instance) : Nat := i.instanceData.id

/-- Property `Instance.status`, delegating to the wrapped instance. -/
def Instance.status (i : Instance) : String := i.instanceData.status

/-- `Instance.stop`: the remote `self.instance.stop()` call. -/
def Instance.stop (env : Env) (i : Instance) : Run Unit :=
  ⟨env.stopResult i.id, [.stopInstance i.id]⟩

/-- The `resources` dictionary built in `CommandHandler.handle` and passed to
`Instance.start`: keys `cpu_count` and `memory_gb`. -/
structure Resources where
  cpu_count : PyVal
  memory_gb : PyVal
deriving DecidableEq

/-- `Instance.start`: the remote `self.instance.start(**resources)` call. -/
def Instance.start (env : Env) (i : Instance) (resources : Resources) : Run Unit :=
  ⟨env.startResult i.id, [.startInstance i.id resources.cpu_count resources.memory_gb]⟩

/-- String form of a value interpolated into an f-string. -/
def pyValStr : PyVal → String
  | .str s => s
  | .pyNone => "None"
  | .optionDecorator _ => "function option decorator"

/-- `InstanceService.steam_login`: build an `h2o_authn.TokenProvider` from
the three config fields, call it for an access token, and log in to Steam at
the stripped URL, all inside `with closing(...)`, which closes the provider
when the block exits whether or not its body raised. -/
def InstanceService.steam_login (env : Env) (config : Config) : Run Unit :=
  let created : List Event :=
    [.createTokenProvider config.refresh_token config.client_id config.token_endpoint]
  let body : Run Unit :=
    match env.tokenResult with
    | .error e => ⟨.error e, created ++ [.acquireToken]⟩
    | .ok token =>
      ⟨env.loginResult config.steam_url token,
        created ++ [.acquireToken, .login config.steam_url token]⟩
  ⟨body.result, body.trace ++ [.closeTokenProvider]⟩

/-- `InstanceService.get_instance`: the SDK lookup by instance name and
owner; a `None` result becomes `InstanceNotFoundException`, any other result
is wrapped in `Instance`. -/
def InstanceService.get_instance (env : Env) (instance_name owner : PyVal) : Run Instance :=
  match env.lookup instance_name owner with
  | .error e => ⟨.error e, [.lookupInstance instance_name owner]⟩
  | .ok Option.none =>
    ⟨.error (.instanceNotFoundException
        ("Instance " ++ pyValStr instance_name ++ " belonging to " ++ pyValStr owner
          ++ " does not exist.")),
      [.lookupInstance instance_name owner]⟩
  | .ok (some d) => ⟨.ok ⟨d⟩, [.lookupInstance instance_name owner]⟩

/-- `InstanceService.set_instance_owner`:
`h2osteam.api().set_driverless_instance_owner(instance.id, owner)`. -/
def InstanceService.set_instance_owner (env : Env) (inst : Instance) (owner : PyVal) : Run Unit :=
  ⟨env.setOwnerResult inst.id owner, [.setOwner inst.id owner]⟩

/-- `InstanceService.transfer_entities`: connect to the instance and call
`admin.transfer_entities(username_from=..., username_to=...)`; the connect
and the transfer form one remote interaction here. -/
def InstanceService.transfer_entities (env : Env) (inst : Instance)
    (username_from username_to : PyVal) : Run Unit :=
  ⟨env.transferResult inst.id username_from username_to,
    [.transferEntities inst.id username_from username_to]⟩

/-- `click.confirm(..., abort=True)`: show the prompt; an affirmative answer
continues, a negative answer raises `click.Abort`. -/
def clickConfirm (env : Env) (instance_name old_user_name new_user_name : PyVal) : Run Unit :=
  if env.confirmAnswer then
    ⟨.ok (), [.confirmPrompt instance_name old_user_name new_user_name]⟩
  else
    ⟨.error .clickAbort, [.confirmPrompt instance_name old_user_name new_user_name]⟩

/-- `logger.info(msg)`. -/
def loggerInfo (msg : String) : Run Unit := ⟨.ok (), [.logInfo msg]⟩

/-- `CommandHandler.handle`: the statements of the method in source order —
login, confirmation prompt, instance lookup, owner reassignment to the admin,
stop when the status is `running`, start with the resources dictionary,
entity transfer, stop, owner reassignment to the new user, completion log. -/
def CommandHandler.handle (env : Env) (config : Config)
    (admin_user_name instance_name old_user_name new_user_name instance_cpu instance_mem : PyVal) :
    Run Unit :=
  Run.bind (InstanceService.steam_login env config) (fun _ =>
  Run.bind (clickConfirm env instance_name old_user_name new_user_name) (fun _ =>
  Run.bind (InstanceService.get_instance env instance_name old_user_name) (fun inst =>
  Run.bind (InstanceService.set_instance_owner env inst admin_user_name) (fun _ =>
  Run.bind (if inst.status = "running" then Instance.stop env inst else Run.pure ()) (fun _ =>
  Run.bind (Instance.start env inst ⟨instance_cpu, instance_mem⟩) (fun _ =>
  Run.bind (InstanceService.transfer_entities env inst old_user_name new_user_name) (fun _ =>
  Run.bind (Instance.stop env inst) (fun _ =>
  Run.bind (InstanceService.set_instance_owner env inst new_user_name) (fun _ =>
  loggerInfo "Transfer complete.")))))))))

/-- `click.option(flag, help=..., required=..., default=...)` returns a
decorator object; nothing is parsed at this point. -/
def clickOption (flag : String) (help : String) (required : Bool) (default : Option String) :
    PyVal :=
  .optionDecorator ⟨flag, help, required, default⟩

/-- The dictionary returned by `parse_command_line_options`, one entry per
documented option, in source order. -/
structure OptionsDict where
  admin_user_name : PyVal
  steam_url : PyVal
  instance_name : PyVal
  old_user_name : PyVal
  new_user_name : PyVal
  instance_cpu : PyVal
  instance_mem : PyVal
deriving DecidableEq

/-- `parse_command_line_options`: builds `click.option` decorators and
returns them in a dictionary. The stored values are the decorator objects
themselves, not parsed command-line strings. -/
def parse_command_line_options : OptionsDict :=
  ⟨clickOption "--admin-user-name"
      "HAIC user name of Steam administrator invoking the transfer." true Option.none,
    clickOption "--steam-url" "HAIC Steam URL." true Option.none,
    clickOption "--instance-name"
      "Name of Driverless AI instance on Steam to transfer." true Option.none,
    clickOption "--old-user-name" "HAIC user name of instance owner." true Option.none,
    clickOption "--new-user-name"
      "HAIC user name to transfer instance ownership to." true Option.none,
    clickOption "--instance-cpu"
      "Use if transfer stalls because instance cpu is too low." false Option.none,
    clickOption "--instance-mem"
      "Use if transfer stalls because instance mem is too low." false Option.none⟩

/-- The click parameters actually attached to the `instance_transfer`
command: the decorators built by `parse_command_line_options` are never
applied to the function, and `@click.command()` together with
`@click.pass_context` registers no options of its own, so the parameter list
of the command is empty. -/
def instance_transfer_params : List OptionSpec := []

/-- The flag name, requiredness and declared default of an option decorator
value, when the value is one. -/
def declaredFlag : PyVal → Option (String × Bool × Option String)
  | .optionDecorator s => some (s.flag, s.required, s.default)
  | _ => none

/-- The body of the `try` block of `instance_transfer`, in source order:
build the options dictionary, construct `Config` from its `steam_url` entry,
wrap it in the service and the handler, and run `handle` on the remaining
entries. -/
def instance_transfer_body (env : Env) : Run Unit :=
  let options := parse_command_line_options
  match Config.init env.fileSystem options.steam_url with
  | .error e => ⟨.error e, []⟩
  | .ok config =>
    CommandHandler.handle env config options.admin_user_name options.instance_name
      options.old_user_name options.new_user_name options.instance_cpu options.instance_mem

/-- Exit code and final event trace of a whole process run. -/
structure RunResult where
  exitCode : Nat
  trace : List Event
deriving DecidableEq

/-- The `except Exception` clause of `instance_transfer`: on any exception,
log the formatted traceback and `sys.exit(1)`; otherwise fall through and
exit 0. -/
def topLevelHandler (body : Run Unit) : RunResult :=
  match body.result with
  | .error e => ⟨1, body.trace ++ [.logError e]⟩
  | .ok _ => ⟨0, body.trace⟩

/-- The `instance_transfer` click command: the body of the `try` block run
under the single top-level exception handler. -/
def instance_transfer (env : Env) : RunResult :=
  topLevelHandler (instance_transfer_body env)

/-- Remote instance operations in the sense of the confirmation guard:
instance lookup, owner reassignment, stop, start, entity transfer. -/
def isInstanceOp : Event → Bool
  | .lookupInstance _ _ => true
  | .setOwner _ _ => true
  | .stopInstance _ => true
  | .startInstance _ _ _ => true
  | .transferEntities _ _ _ => true
  | _ => false

/-- The instance-mutating remote calls of a trace, in order: owner
reassignment, stop, start, entity transfer (lookup excluded). -/
def instanceMutationOps (t : List Event) : List Event :=
  t.filter (fun e =>
    match e with
    | .setOwner _ _ => true
    | .stopInstance _ => true
    | .startInstance _ _ _ => true
    | .transferEntities _ _ _ => true
    | _ => false)

/-- Modelled from the spec: the five-call order the spec states for the
instance-mutating remote calls — stop, reassign to the admin, start, transfer
entities, reassign to the new user — written from the spec words for
comparison with the order the code produces. -/
def specFiveCallOrder (id : Nat) (admin old new cpu mem : PyVal) : List Event :=
  [.stopInstance id, .setOwner id admin, .startInstance id cpu mem,
    .transferEntities id old new, .setOwner id new]

/-- All-slash string of length `k`, for stating trailing-slash invariance. -/
def slashString (k : Nat) : String := String.mk (List.replicate k '/')

/-- A sample INI section carrying the three documented fields. -/
def sampleSection : SectionData :=
  [("refresh_token", "rt"), ("client_id", "ci"), ("token_endpoint", "te")]

/-- A sample file system: `h2oai.config` exists and holds one section. -/
def sampleFileSystem : FileSystem :=
  ⟨true, [("https://steam.example.com", sampleSection)]⟩

/-- A sample remote world where every call succeeds, the confirmation is
answered affirmatively, and the lookup finds instance 7 in status
`running`. -/
def sampleEnv : Env :=
  ⟨sampleFileSystem,
    .ok "tok",
    fun _ _ => .ok (),
    true,
    fun _ _ => .ok (some ⟨7, "running"⟩),
    fun _ _ => .ok (),
    fun _ => .ok (),
    fun _ => .ok (),
    fun _ _ _ => .ok ()⟩

/-- `sampleEnv` with the confirmation prompt declined. -/
def sampleEnvNo : Env :=
  ⟨sampleFileSystem,
    .ok "tok",
    fun _ _ => .ok (),
    false,
    fun _ _ => .ok (some ⟨7, "running"⟩),
    fun _ _ => .ok (),
    fun _ => .ok (),
    fun _ => .ok (),
    fun _ _ _ => .ok ()⟩

/-- `sampleEnv` with a token provider whose token call raises. -/
def sampleEnvTokenFail : Env :=
  ⟨sampleFileSystem,
    .error (.remoteError "token endpoint unreachable"),
    fun _ _ => .ok (),
    true,
    fun _ _ => .ok (some ⟨7, "running"⟩),
    fun _ _ => .ok (),
    fun _ => .ok (),
    fun _ => .ok (),
    fun _ _ _ => .ok ()⟩

/-- `sampleEnv` with a lookup that finds no instance. -/
def sampleEnvNotFound : Env :=
  ⟨sampleFileSystem,
    .ok "tok",
    fun _ _ => .ok (),
    true,
    fun _ _ => .ok Option.none,
    fun _ _ => .ok (),
    fun _ => .ok (),
    fun _ => .ok (),
    fun _ _ _ => .ok ()⟩

/-- The sample `Config` that `Config.init` produces on `sampleFileSystem`. -/
def sampleConfig : Config := ⟨"https://steam.example.com", sampleSection⟩

/-- On a confirmed prompt with all remote calls succeeding, the full event
trace of `CommandHandler.handle`: login bracketed by the token-provider
lifecycle, the prompt, the lookup, owner reassignment to the admin, a stop
only when the status is `running`, start, entity transfer, stop, owner
reassignment to the new user, and the completion log. -/
theorem handle_trace_happy (env : Env) (config : Config)
    (a n o w c m : PyVal) (d : InstData) (tok : String)
    (hTok : env.tokenResult = .ok tok)
    (hLogin : env.loginResult config.steam_url tok = .ok ())
    (hConfirm : env.confirmAnswer = true)
    (hLookup : env.lookup n o = .ok (some d))
    (hOwnA : env.setOwnerResult d.id a = .ok ())
    (hStop : env.stopResult d.id = .ok ())
    (hStart : env.startResult d.id = .ok ())
    (hTrans : env.transferResult d.id o w = .ok ())
    (hOwnW : env.setOwnerResult d.id w = .ok ()) :
    CommandHandler.handle env config a n o w c m =
      ⟨.ok (),
        [.createTokenProvider config.refresh_token config.client_id config.token_endpoint,
          .acquireToken, .login config.steam_url tok, .closeTokenProvider,
          .confirmPrompt n o w, .lookupInstance n o, .setOwner d.id a]
        ++ (if d.status = "running" then [.stopInstance d.id] else [])
        ++ [.startInstance d.id c m, .transferEntities d.id o w,
            .stopInstance d.id, .setOwner d.id w, .logInfo "Transfer complete."]⟩ := by
  simp only [CommandHandler.handle, InstanceService.steam_login, clickConfirm,
    InstanceService.get_instance, InstanceService.set_instance_owner, Instance.stop,
    Instance.start, InstanceService.transfer_entities, loggerInfo, Run.bind, Run.pure,
    Instance.id, Instance.status, hTok, hLogin, hConfirm, hLookup, hOwnA, hStop, hStart,
    hTrans, hOwnW, if_true]
  by_cases hd : d.status = "running" <;> simp [hd]

/-- C1: counterexample. On a concrete confirmed run whose instance has
status `running`, the instance-mutating remote calls of
`CommandHandler.handle` are reassign-to-admin, stop, start, transfer, stop,
reassign-to-new — not the claimed stop, reassign, start, transfer, reassign —
and the confirmation prompt precedes the instance lookup in the trace rather
than following it as the claimed run order states. -/
theorem C1_counterexample :
    instanceMutationOps (CommandHandler.handle sampleEnv sampleConfig
        (.str "admin") (.str "inst") (.str "old") (.str "new") .pyNone .pyNone).trace =
      [.setOwner 7 (.str "admin"), .stopInstance 7, .startInstance 7 .pyNone .pyNone,
        .transferEntities 7 (.str "old") (.str "new"), .stopInstance 7,
        .setOwner 7 (.str "new")] ∧
    instanceMutationOps (CommandHandler.handle sampleEnv sampleConfig
        (.str "admin") (.str "inst") (.str "old") (.str "new") .pyNone .pyNone).trace ≠
      specFiveCallOrder 7 (.str "admin") (.str "old") (.str "new") .pyNone .pyNone ∧
    (CommandHandler.handle sampleEnv sampleConfig
        (.str "admin") (.str "inst") (.str "old") (.str "new") .pyNone .pyNone).trace.take 6 =
      [.createTokenProvider (some "rt") (some "ci") (some "te"), .acquireToken,
        .login "https://steam.example.com" "tok", .closeTokenProvider,
        .confirmPrompt (.str "inst") (.str "old") (.str "new"),
        .lookupInstance (.str "inst") (.str "old")] := by
  decide

/-- C1 (amended): given a confirmed prompt and successful remote calls,
`CommandHandler.handle` performs the remote calls in the order login,
confirmation prompt, instance lookup, owner reassignment to the admin, stop
only when the status is `running`, start, entity transfer, stop, owner
reassignment to the new user, then logs the result; the confirmation precedes
the lookup, and the stop preceding the final reassignment is unconditional. -/
theorem C1_handle_call_order (env : Env) (config : Config)
    (a n o w c m : PyVal) (d : InstData) (tok : String)
    (hTok : env.tokenResult = .ok tok)
    (hLogin : env.loginResult config.steam_url tok = .ok ())
    (hConfirm : env.confirmAnswer = true)
    (hLookup : env.lookup n o = .ok (some d))
    (hOwnA : env.setOwnerResult d.id a = .ok ())
    (hStop : env.stopResult d.id = .ok ())
    (hStart : env.startResult d.id = .ok ())
    (hTrans : env.transferResult d.id o w = .ok ())
    (hOwnW : env.setOwnerResult d.id w = .ok ()) :
    CommandHandler.handle env config a n o w c m =
      ⟨.ok (),
        [.createTokenProvider config.refresh_token config.client_id config.token_endpoint,
          .acquireToken, .login config.steam_url tok, .closeTokenProvider,
          .confirmPrompt n o w, .lookupInstance n o, .setOwner d.id a]
        ++ (if d.status = "running" then [.stopInstance d.id] else [])
        ++ [.startInstance d.id c m, .transferEntities d.id o w,
            .stopInstance d.id, .setOwner d.id w, .logInfo "Transfer complete."]⟩ :=
  handle_trace_happy env config a n o w c m d tok hTok hLogin hConfirm hLookup hOwnA
    hStop hStart hTrans hOwnW

/-- C1: witness. The amended call order evaluated on the sample world. -/
theorem C1_witness :
    CommandHandler.handle sampleEnv sampleConfig
        (.str "admin") (.str "inst") (.str "old") (.str "new") .pyNone .pyNone =
      ⟨.ok (),
        [.createTokenProvider (some "rt") (some "ci") (some "te"), .acquireToken,
          .login "https://steam.example.com" "tok", .closeTokenProvider,
          .confirmPrompt (.str "inst") (.str "old") (.str "new"),
          .lookupInstance (.str "inst") (.str "old"), .setOwner 7 (.str "admin"),
          .stopInstance 7, .startInstance 7 .pyNone .pyNone,
          .transferEntities 7 (.str "old") (.str "new"), .stopInstance 7,
          .setOwner 7 (.str "new"), .logInfo "Transfer complete."]⟩ := by
  have h := C1_handle_call_order sampleEnv sampleConfig
    (.str "admin") (.str "inst") (.str "old") (.str "new") .pyNone .pyNone
    ⟨7, "running"⟩ "tok" rfl rfl rfl rfl rfl rfl rfl rfl rfl
  simpa using h

/-- C2: every run of the `instance_transfer` command exits with code 1
having logged an `AttributeError` traceback and performed no remote call at
all, whatever the file system and remote world: the options dictionary holds
the `click.option` decorator objects themselves, so `Config.__init__` raises
on `rstrip` before any login, lookup, stop, start, transfer or owner
reassignment. -/
theorem C2_always_fails_before_any_remote_call (env : Env) :
    instance_transfer env =
      ⟨1, [.logError (.attributeError "function object has no attribute rstrip")]⟩ :=
  rfl

/-- C3: every exception reaching the top level of `instance_transfer` is
handled by the single `except Exception` handler, which logs the traceback
after the events already performed and exits with code 1; a body that raises
nothing exits with code 0 and its trace unchanged (no retry is added); and
`instance_transfer` is exactly the try-block body run under this handler. -/
theorem C3_top_level_handler (b : Run Unit) :
    (∀ e : Exc, b.result = .error e → topLevelHandler b = ⟨1, b.trace ++ [.logError e]⟩) ∧
    (b.result = .ok () → topLevelHandler b = ⟨0, b.trace⟩) ∧
    (∀ env : Env, instance_transfer env = topLevelHandler (instance_transfer_body env)) := by
  refine ⟨fun e he => ?_, fun hok => ?_, fun env => rfl⟩
  · simp [topLevelHandler, he]
  · simp [topLevelHandler, hok]

/-- C3: witness. The handler on a raising body and on a successful body. -/
theorem C3_witness :
    topLevelHandler ⟨.error .clickAbort, [.confirmPrompt .pyNone .pyNone .pyNone]⟩ =
      ⟨1, [.confirmPrompt .pyNone .pyNone .pyNone] ++ [.logError .clickAbort]⟩ ∧
    topLevelHandler ⟨.ok (), [.logInfo "Transfer complete."]⟩ =
      ⟨0, [.logInfo "Transfer complete."]⟩ :=
  ⟨(C3_top_level_handler ⟨.error .clickAbort, [.confirmPrompt .pyNone .pyNone .pyNone]⟩).1
      .clickAbort rfl,
    (C3_top_level_handler ⟨.ok (), [.logInfo "Transfer complete."]⟩).2.1 rfl⟩

/-- C4: evaluation of the code. The decorators built by
`parse_command_line_options` declare exactly the seven documented flags, the
first five required and the last two optional with default `None`, but the
command itself has no parameters attached: as wired, the CLI accepts none of
these flags. -/
theorem C4_options_never_attached :
    instance_transfer_params = [] ∧
    [declaredFlag parse_command_line_options.admin_user_name,
      declaredFlag parse_command_line_options.steam_url,
      declaredFlag parse_command_line_options.instance_name,
      declaredFlag parse_command_line_options.old_user_name,
      declaredFlag parse_command_line_options.new_user_name,
      declaredFlag parse_command_line_options.instance_cpu,
      declaredFlag parse_command_line_options.instance_mem] =
    [some ("--admin-user-name", true, Option.none),
      some ("--steam-url", true, Option.none),
      some ("--instance-name", true, Option.none),
      some ("--old-user-name", true, Option.none),
      some ("--new-user-name", true, Option.none),
      some ("--instance-cpu", false, Option.none),
      some ("--instance-mem", false, Option.none)] := by
  decide

/-- C5: `Config` reads the local file `h2oai.config` and returns the section
keyed by the stripped Steam URL, exposing `refresh_token`, `client_id` and
`token_endpoint` as section lookups; when the file does not exist in the
current working directory, construction raises `ConfigException`. -/
theorem C5_config_reads_local_file (fs : FileSystem) (u : String) :
    (fs.fileExists = false →
      Config.init fs (.str u) =
        .error (.configException "Config file does not exist: h2oai.config")) ∧
    (∀ sec : SectionData, fs.fileExists = true →
      fs.sections.lookup (pyRstripSlashes u) = some sec →
      Config.init fs (.str u) = .ok ⟨pyRstripSlashes u, sec⟩ ∧
      Config.refresh_token ⟨pyRstripSlashes u, sec⟩ = sec.lookup "refresh_token" ∧
      Config.client_id ⟨pyRstripSlashes u, sec⟩ = sec.lookup "client_id" ∧
      Config.token_endpoint ⟨pyRstripSlashes u, sec⟩ = sec.lookup "token_endpoint") := by
  constructor
  · intro h
    simp [Config.init, pyRstrip, Config.load_config, h]
  · intro sec hex hlook
    refine ⟨?_, rfl, rfl, rfl⟩
    simp [Config.init, pyRstrip, Config.load_config, hex, hlook]

/-- C5: witness. A missing file raises `ConfigException`; on the sample file
system the section keyed by the stripped URL is returned. -/
theorem C5_witness :
    Config.init ⟨false, []⟩ (.str "https://steam.example.com") =
      .error (.configException "Config file does not exist: h2oai.config") ∧
    Config.init sampleFileSystem (.str "https://steam.example.com/") =
      .ok ⟨"https://steam.example.com", sampleSection⟩ :=
  ⟨(C5_config_reads_local_file ⟨false, []⟩ "https://steam.example.com").1 rfl,
    ((C5_config_reads_local_file sampleFileSystem "https://steam.example.com/").2
      sampleSection rfl (by decide)).1⟩

/-- C6: without an affirmative confirmation no remote instance operation
happens: when the prompt is declined every event of `handle` is a
non-instance operation (no lookup, reassignment, stop, start or transfer),
and when login succeeded the run aborts with `click.Abort` immediately after
the prompt. -/
theorem C6_confirmation_guards_instance_ops (env : Env) (config : Config)
    (a n o w c m : PyVal) (hNo : env.confirmAnswer = false) :
    (∀ e ∈ (CommandHandler.handle env config a n o w c m).trace, isInstanceOp e = false) ∧
    (∀ tok : String, env.tokenResult = .ok tok →
      env.loginResult config.steam_url tok = .ok () →
      CommandHandler.handle env config a n o w c m =
        ⟨.error .clickAbort,
          [.createTokenProvider config.refresh_token config.client_id config.token_endpoint,
            .acquireToken, .login config.steam_url tok, .closeTokenProvider,
            .confirmPrompt n o w]⟩) := by
  constructor
  · cases htok : env.tokenResult with
    | error e =>
      simp [CommandHandler.handle, InstanceService.steam_login, Run.bind, htok, isInstanceOp]
    | ok tok =>
      cases hlog : env.loginResult config.steam_url tok with
      | error e =>
        simp [CommandHandler.handle, InstanceService.steam_login, clickConfirm, Run.bind,
          htok, hlog, isInstanceOp]
      | ok u =>
        simp [CommandHandler.handle, InstanceService.steam_login, clickConfirm, Run.bind,
          htok, hlog, hNo, isInstanceOp]
  · intro tok htok hlog
    simp [CommandHandler.handle, InstanceService.steam_login, clickConfirm, Run.bind,
      htok, hlog, hNo]

/-- C6: witness. On the sample world with the prompt declined, `handle`
aborts right after the prompt, with no instance operation issued. -/
theorem C6_witness :
    CommandHandler.handle sampleEnvNo sampleConfig
        (.str "admin") (.str "inst") (.str "old") (.str "new") .pyNone .pyNone =
      ⟨.error .clickAbort,
        [.createTokenProvider (some "rt") (some "ci") (some "te"), .acquireToken,
          .login "https://steam.example.com" "tok", .closeTokenProvider,
          .confirmPrompt (.str "inst") (.str "old") (.str "new")]⟩ := by
  have h := (C6_confirmation_guards_instance_ops sampleEnvNo sampleConfig
    (.str "admin") (.str "inst") (.str "old") (.str "new") .pyNone .pyNone rfl).2
    "tok" rfl rfl
  simpa using h

/-- C7: `InstanceService.get_instance` raises `InstanceNotFoundException`
exactly when the SDK lookup returns `None`: an exception of the lookup
propagates unchanged, a `None` result becomes the not-found exception, and a
found instance is returned wrapped in `Instance`, whose `id` and `status`
delegate to the wrapped instance. -/
theorem C7_get_instance_not_found (env : Env) (n o : PyVal) :
    (∀ e : Exc, env.lookup n o = .error e →
      InstanceService.get_instance env n o = ⟨.error e, [.lookupInstance n o]⟩) ∧
    (env.lookup n o = .ok Option.none →
      InstanceService.get_instance env n o =
        ⟨.error (.instanceNotFoundException
            ("Instance " ++ pyValStr n ++ " belonging to " ++ pyValStr o
              ++ " does not exist.")),
          [.lookupInstance n o]⟩) ∧
    (∀ d : InstData, env.lookup n o = .ok (some d) →
      InstanceService.get_instance env n o = ⟨.ok ⟨d⟩, [.lookupInstance n o]⟩ ∧
      Instance.id ⟨d⟩ = d.id ∧ Instance.status ⟨d⟩ = d.status) := by
  refine ⟨fun e he => ?_, fun hn => ?_, fun d hd => ⟨?_, rfl, rfl⟩⟩ <;>
    simp_all [InstanceService.get_instance]

/-- C7: witness. On the sample world the lookup finds instance 7 and
`get_instance` returns it wrapped; on an empty lookup it raises the
not-found exception. -/
theorem C7_witness :
    InstanceService.get_instance sampleEnv (.str "inst") (.str "old") =
      ⟨.ok ⟨⟨7, "running"⟩⟩, [.lookupInstance (.str "inst") (.str "old")]⟩ ∧
    InstanceService.get_instance sampleEnvNotFound (.str "inst") (.str "old") =
      ⟨.error (.instanceNotFoundException
          "Instance inst belonging to old does not exist."),
        [.lookupInstance (.str "inst") (.str "old")]⟩ :=
  ⟨((C7_get_instance_not_found sampleEnv (.str "inst") (.str "old")).2.2
      ⟨7, "running"⟩ rfl).1,
    (C7_get_instance_not_found sampleEnvNotFound (.str "inst") (.str "old")).2.1 rfl⟩

/-- C8: `steam_login` releases the token provider on every path: the
provider is created, the token acquired and the login attempted inside the
`with closing(...)` scope, and the close event follows whether the token
call raises, the login raises, or the login succeeds; the last event of the
trace is always the close. -/
theorem C8_token_provider_always_closed (env : Env) (config : Config) :
    (∀ e : Exc, env.tokenResult = .error e →
      InstanceService.steam_login env config =
        ⟨.error e,
          [.createTokenProvider config.refresh_token config.client_id config.token_endpoint,
            .acquireToken, .closeTokenProvider]⟩) ∧
    (∀ tok : String, env.tokenResult = .ok tok →
      InstanceService.steam_login env config =
        ⟨env.loginResult config.steam_url tok,
          [.createTokenProvider config.refresh_token config.client_id config.token_endpoint,
            .acquireToken, .login config.steam_url tok, .closeTokenProvider]⟩) ∧
    (InstanceService.steam_login env config).trace.getLast? = some .closeTokenProvider := by
  refine ⟨fun e he => ?_, fun tok htok => ?_, ?_⟩
  · simp [InstanceService.steam_login, he]
  · simp [InstanceService.steam_login, htok]
  · cases htok : env.tokenResult <;>
      simp [InstanceService.steam_login, htok, List.getLast?_concat]

/-- C8: witness. The provider is closed both on a raising token call and on
a successful login. -/
theorem C8_witness :
    InstanceService.steam_login sampleEnvTokenFail sampleConfig =
      ⟨.error (.remoteError "token endpoint unreachable"),
        [.createTokenProvider (some "rt") (some "ci") (some "te"), .acquireToken,
          .closeTokenProvider]⟩ ∧
    InstanceService.steam_login sampleEnv sampleConfig =
      ⟨.ok (),
        [.createTokenProvider (some "rt") (some "ci") (some "te"), .acquireToken,
          .login "https://steam.example.com" "tok", .closeTokenProvider]⟩ :=
  ⟨(C8_token_provider_always_closed sampleEnvTokenFail sampleConfig).1
      (.remoteError "token endpoint unreachable") rfl,
    (C8_token_provider_always_closed sampleEnv sampleConfig).2.1 "tok" rfl⟩

/-- Dropping leading slashes removes a whole leading block of slashes. -/
theorem dropWhile_slash_replicate (k : Nat) (l : List Char) :
    List.dropWhile (fun c => c == '/') (List.replicate k '/' ++ l) =
      List.dropWhile (fun c => c == '/') l := by
  induction k with
  | zero => simp
  | succ k ih => simp [List.replicate_succ, List.dropWhile_cons, ih]

/-- Appending trailing slashes does not change the stripped URL. -/
theorem pyRstripSlashes_append_slashes (s : String) (k : Nat) :
    pyRstripSlashes (s ++ slashString k) = pyRstripSlashes s := by
  cases s with
  | mk l =>
    show pyRstripSlashes (String.mk (l ++ List.replicate k '/')) =
      pyRstripSlashes (String.mk l)
    simp [pyRstripSlashes, List.reverse_append, List.reverse_replicate,
      dropWhile_slash_replicate]

/-- C9: `Config` strips all trailing slashes from the Steam URL, the section
lookup and the stored URL both use the stripped form, and the login URL of
`steam_login` is that stored URL; hence two invocations whose URLs differ
only in trailing slashes build equal configurations and log in
identically. -/
theorem C9_trailing_slash_invariance (fs : FileSystem) (env : Env) (base : String)
    (k₁ k₂ : Nat) :
    Config.init fs (.str (base ++ slashString k₁)) =
      Config.init fs (.str (base ++ slashString k₂)) ∧
    (∀ c : Config, Config.init fs (.str (base ++ slashString k₁)) = .ok c →
      c.steam_url = pyRstripSlashes base) ∧
    (∀ c₁ c₂ : Config, Config.init fs (.str (base ++ slashString k₁)) = .ok c₁ →
      Config.init fs (.str (base ++ slashString k₂)) = .ok c₂ →
      InstanceService.steam_login env c₁ = InstanceService.steam_login env c₂) := by
  have hgen : ∀ k : Nat, Config.init fs (.str (base ++ slashString k)) =
      (match Config.load_config fs (pyRstripSlashes base) with
        | .error e => .error e
        | .ok sec => .ok ⟨pyRstripSlashes base, sec⟩) := by
    intro k
    simp [Config.init, pyRstrip, pyRstripSlashes_append_slashes]
  refine ⟨by rw [hgen k₁, hgen k₂], fun c hc => ?_, fun c₁ c₂ h1 h2 => ?_⟩
  · rw [hgen k₁] at hc
    cases hload : Config.load_config fs (pyRstripSlashes base) with
    | error e => rw [hload] at hc; simp at hc
    | ok sec => rw [hload] at hc; cases hc; rfl
  · rw [hgen k₁] at h1
    rw [hgen k₂] at h2
    cases hload : Config.load_config fs (pyRstripSlashes base) with
    | error e => rw [hload] at h1; simp at h1
    | ok sec =>
      rw [hload] at h1
      rw [hload] at h2
      cases h1
      cases h2
      rfl

/-- C9: witness. One and three trailing slashes produce the same `Config`,
whose stored URL is the stripped base URL. -/
theorem C9_witness :
    Config.init sampleFileSystem (.str ("https://steam.example.com" ++ slashString 1)) =
      Config.init sampleFileSystem (.str ("https://steam.example.com" ++ slashString 3)) ∧
    sampleConfig.steam_url = pyRstripSlashes "https://steam.example.com" :=
  ⟨(C9_trailing_slash_invariance sampleFileSystem sampleEnv "https://steam.example.com"
      1 3).1,
    (C9_trailing_slash_invariance sampleFileSystem sampleEnv "https://steam.example.com"
      1 3).2.1 sampleConfig (by decide)⟩

/-- C10: on a confirmed successful run, the initial stop happens only when
the looked-up status is `running` (the stop event occurs twice when running
and once otherwise), and after the entity transfer the instance is stopped
unconditionally and its owner reassigned to the new user as the final remote
call, so the run ends stop, reassign-to-new-user, completion log. -/
theorem C10_final_stop_and_owner (env : Env) (config : Config)
    (a n o w c m : PyVal) (d : InstData) (tok : String)
    (hTok : env.tokenResult = .ok tok)
    (hLogin : env.loginResult config.steam_url tok = .ok ())
    (hConfirm : env.confirmAnswer = true)
    (hLookup : env.lookup n o = .ok (some d))
    (hOwnA : env.setOwnerResult d.id a = .ok ())
    (hStop : env.stopResult d.id = .ok ())
    (hStart : env.startResult d.id = .ok ())
    (hTrans : env.transferResult d.id o w = .ok ())
    (hOwnW : env.setOwnerResult d.id w = .ok ()) :
    (CommandHandler.handle env config a n o w c m).trace.count (.stopInstance d.id) =
      (if d.status = "running" then 2 else 1) ∧
    (CommandHandler.handle env config a n o w c m).trace =
      ([.createTokenProvider config.refresh_token config.client_id config.token_endpoint,
          .acquireToken, .login config.steam_url tok, .closeTokenProvider,
          .confirmPrompt n o w, .lookupInstance n o, .setOwner d.id a]
        ++ (if d.status = "running" then [.stopInstance d.id] else [])
        ++ [.startInstance d.id c m, .transferEntities d.id o w])
      ++ [.stopInstance d.id, .setOwner d.id w, .logInfo "Transfer complete."] := by
  rw [handle_trace_happy env config a n o w c m d tok hTok hLogin hConfirm hLookup hOwnA
    hStop hStart hTrans hOwnW]
  by_cases hd : d.status = "running" <;>
    simp [hd, List.count_append, List.count_cons, List.count_nil, beq_iff_eq]

/-- C10: witness. On the sample running instance the stop event occurs
twice, and the trace ends with the unconditional stop, the reassignment to
the new user and the completion log. -/
theorem C10_witness :
    (CommandHandler.handle sampleEnv sampleConfig
        (.str "admin") (.str "inst") (.str "old") (.str "new") .pyNone .pyNone).trace.count
      (.stopInstance 7) = 2 ∧
    (CommandHandler.handle sampleEnv sampleConfig
        (.str "admin") (.str "inst") (.str "old") (.str "new") .pyNone .pyNone).trace =
      [.createTokenProvider (some "rt") (some "ci") (some "te"), .acquireToken,
        .login "https://steam.example.com" "tok", .closeTokenProvider,
        .confirmPrompt (.str "inst") (.str "old") (.str "new"),
        .lookupInstance (.str "inst") (.str "old"), .setOwner 7 (.str "admin"),
        .stopInstance 7, .startInstance 7 .pyNone .pyNone,
        .transferEntities 7 (.str "old") (.str "new"), .stopInstance 7,
        .setOwner 7 (.str "new"), .logInfo "Transfer complete."] := by
  have h := C10_final_stop_and_owner sampleEnv sampleConfig
    (.str "admin") (.str "inst") (.str "old") (.str "new") .pyNone .pyNone
    ⟨7, "running"⟩ "tok" rfl rfl rfl rfl rfl rfl rfl rfl rfl
  simpa using h
